import Mathlib

/-!
Verification of the fortune-telling web service core (`main.py`).

The pipeline of `get_fortune` is embedded shallowly:
* classifier output is a list of label/score pairs (scores as rationals);
* the Python `set` of status codes is a duplicate-free list in insertion
  order; the answer table `ANSWERS_DATA` is a list of category records;
* `random.choice` is modelled by an injected draw function `rnd : Nat → Nat`
  giving the random value for the k-th draw; choosing from an empty list
  yields `none`, modelling the `IndexError` that `random.choice` raises;
* fallible computation returns `Option`: `none` models an uncaught
  exception escaping `get_fortune`.
-/

namespace Fortune

/-- A (label, confidence) pair as produced by the zero-shot classifier
(`result['labels']` zipped with `result['scores']`). -/
structure LabelScore where
  label : String
  score : ℚ
deriving Repr, DecidableEq

/-- One record of `answers.json`: a status identifier and, when the
`"answers"` key is present, its list of answer strings. -/
structure CategoryData where
  status : String
  answers : Option (List String)
deriving Repr, DecidableEq

/-- The static label → status-code mapping (`LABEL_MAPPING` in `main.py`). -/
def LABEL_MAPPING : List (String × String) :=
  [("Sự nghiệp", "S0"),
   ("Công việc", "S0"),
   ("Tình duyên", "S1"),
   ("Tình yêu", "S1"),
   ("Gia đạo", "S1"),
   ("Sức khỏe", "S2"),
   ("Tài lộc", "S3"),
   ("Tiền bạc", "S3"),
   ("Tổng quát", "S4"),
   ("Khác", "S4")]

/-- The fixed candidate label list handed to the classifier
(`CANDIDATE_LABELS` in `main.py`). -/
def CANDIDATE_LABELS : List String :=
  ["Sự nghiệp", "Tình duyên", "Sức khỏe", "Tài lộc", "Tổng quát"]

/-- Dictionary lookup `LABEL_MAPPING[label]` / membership test
`label in LABEL_MAPPING`. -/
def lookupLabel (l : String) : List (String × String) → Option String
  | [] => none
  | (k, v) :: rest => if k = l then some v else lookupLabel l rest

/-- `statuses.add(st)` on a Python set, modelled on a duplicate-free list
kept in insertion order. -/
def addStatus (s : List String) (st : String) : List String :=
  if st ∈ s then s else s ++ [st]

/-- One iteration of the classification loop (`main.py` lines 110–115):
keep the pair only when `score > 0.6`, and only when its label is a key of
`LABEL_MAPPING`; then add the mapped status and record the label. -/
def resolveStep (acc : List String × List String) (ls : LabelScore) :
    List String × List String :=
  if ls.score > 6/10 then
    match lookupLabel ls.label LABEL_MAPPING with
    | some st => (addStatus acc.1 st, acc.2 ++ [ls.label])
    | none => acc
  else acc

/-- The Topic Resolution Policy (`main.py` lines 100–123): fold the
classification loop over the scores, then fall back to the general status
`"S4"` (recording label `"Tổng quát"`) when the status set is empty. -/
def resolve (scores : List LabelScore) : List String × List String :=
  let r := scores.foldl resolveStep ([], [])
  if r.1 = [] then (["S4"], r.2 ++ ["Tổng quát"]) else r

/-- `next((item for item in ANSWERS_DATA if item["status"] == status), None)`
(`main.py` line 130). -/
def findCategory (table : List CategoryData) (status : String) :
    Option CategoryData :=
  table.find? (fun item => item.status = status)

/-- `random.choice(l)` given the random draw value `r`: picks index
`r % l.length`; on the empty list it is `none` (Python raises
`IndexError`). -/
def randomChoice (r : Nat) (l : List String) : Option String :=
  l.get? (r % l.length)

/-- The answer-selection loop (`main.py` lines 126–136) over the status
list, threading the draw counter `k` and the accumulator `acc`;
`none` models an exception escaping the loop. -/
def selectAnswersAux (table : List CategoryData) (rnd : Nat → Nat) :
    List String → Nat → List String → Option (List String)
  | [], _, acc => some acc
  | st :: rest, k, acc =>
    match findCategory table st with
    | some cd =>
      match cd.answers with
      | some ans =>
        match randomChoice (rnd k) ans with
        | some a => selectAnswersAux table rnd rest (k + 1) (acc ++ [a])
        | none => none
      | none => selectAnswersAux table rnd rest k acc
    | none => selectAnswersAux table rnd rest k acc

/-- `selected_answers` after the loop (`main.py` lines 126–134). -/
def selectAnswers (table : List CategoryData) (rnd : Nat → Nat)
    (statuses : List String) : Option (List String) :=
  selectAnswersAux table rnd statuses 0 []

/-- The hardcoded default reassurance string (`main.py` line 136). -/
def DEFAULT_ANSWER : String :=
  "Vũ trụ đang gửi tín hiệu nhiễu, nhưng hãy tin rằng mọi điều tốt đẹp sẽ đến."

/-- The greeting prefix of the final message (`main.py` line 141). -/
def greeting (name : String) (birth_year : ℤ) : String :=
  "Gia chủ " ++ name ++ ", Sinh năm " ++ toString birth_year ++ ". "

/-- The Answer Composer (`main.py` lines 126–143): select one answer per
status, substitute the default string when none was selected, join with a
single space and prefix the greeting. -/
def compose (table : List CategoryData) (rnd : Nat → Nat)
    (statuses : List String) (name : String) (birth_year : ℤ) :
    Option String :=
  match selectAnswers table rnd statuses with
  | none => none
  | some sel =>
    let selected := if sel = [] then [DEFAULT_ANSWER] else sel
    some (greeting name birth_year ++ String.intercalate " " selected)

/-- `birth_year = current_year - age` (`main.py` line 97). -/
def birth_year (current_year age : ℤ) : ℤ :=
  current_year - age

/-- `get_fortune` (`main.py` lines 87–143), with the classifier output for
the question, the current year and the random source injected. -/
def get_fortune (table : List CategoryData) (rnd : Nat → Nat)
    (current_year : ℤ) (name : String) (age : ℤ)
    (scores : List LabelScore) : Option String :=
  compose table rnd (resolve scores).1 name (birth_year current_year age)

/-- The observable effect of `send_webhook`: whether a POST was attempted
(and with what url and payload), and whether an exception escapes to the
caller. -/
structure WebhookOutcome where
  posted : Option (String × String)
  raised : Bool
deriving Repr, DecidableEq

/-- The webhook payload text (`main.py` lines 76–78). -/
def webhookPayload (name : String) (age : ℤ) (question : String) : String :=
  "New Fortune Request:\nName: " ++ name ++ "\nAge: " ++ toString age
    ++ "\nQuestion: " ++ question

/-- `send_webhook` (`main.py` lines 72–84): no url → early return without a
POST; otherwise POST inside `try`/`except` — whether or not the delivery
fails (`postFails`), the handler swallows the error, so `raised` is
`false` in every case. -/
def send_webhook (WEBHOOK_URL : Option String) (postFails : Bool)
    (name : String) (age : ℤ) (question : String) : WebhookOutcome :=
  match WEBHOOK_URL with
  | none => ⟨none, false⟩
  | some url =>
    let _ := postFails
    ⟨some (url, webhookPayload name age question), false⟩

/-- The `/result` route (`main.py` lines 180–205): the fortune is computed
from the request, and the webhook dispatched as a background task; the
pair collects the user-visible response and the webhook's outcome. -/
def result_route (table : List CategoryData) (rnd : Nat → Nat)
    (current_year : ℤ) (WEBHOOK_URL : Option String) (postFails : Bool)
    (name : String) (age : ℤ) (question : String)
    (scores : List LabelScore) : Option String × WebhookOutcome :=
  (get_fortune table rnd current_year name age scores,
   send_webhook WEBHOOK_URL postFails name age question)

/-! ### Helper lemmas -/

/-- Membership after a set-insert: the element was already there or is the
inserted one. -/
theorem addStatus_mem {s : List String} {st x : String}
    (h : x ∈ addStatus s st) : x ∈ s ∨ x = st := by
  unfold addStatus at h
  split at h
  · exact Or.inl h
  · rcases List.mem_append.mp h with h | h
    · exact Or.inl h
    · exact Or.inr (List.mem_singleton.mp h)

/-- Set-insert preserves freedom from duplicates. -/
theorem addStatus_nodup {s : List String} (st : String) (h : s.Nodup) :
    (addStatus s st).Nodup := by
  unfold addStatus
  split
  · exact h
  · rename_i hst
    simpa [List.nodup_append, hst] using h

/-- A pair at or below the threshold leaves the accumulator unchanged. -/
theorem resolveStep_of_le {acc : List String × List String}
    {ls : LabelScore} (h : ls.score ≤ 6/10) : resolveStep acc ls = acc := by
  simp [resolveStep, not_lt.mpr h]

/-- A pair whose label is not a key of `LABEL_MAPPING` leaves the
accumulator unchanged. -/
theorem resolveStep_of_unmapped {acc : List String × List String}
    {ls : LabelScore} (h : lookupLabel ls.label LABEL_MAPPING = none) :
    resolveStep acc ls = acc := by
  by_cases hgt : ls.score > 6/10
  · simp [resolveStep, hgt, h]
  · simp [resolveStep, hgt]

/-- Any status present after one loop iteration was already present, or
comes from this pair passing the strict threshold and the mapping. -/
theorem resolveStep_mem {acc : List String × List String} {ls : LabelScore}
    {st : String} (h : st ∈ (resolveStep acc ls).1) :
    st ∈ acc.1 ∨
      (ls.score > 6/10 ∧ lookupLabel ls.label LABEL_MAPPING = some st) := by
  by_cases hgt : ls.score > 6/10
  · rcases hlk : lookupLabel ls.label LABEL_MAPPING with _ | st'
    · simp only [resolveStep, if_pos hgt, hlk] at h
      exact Or.inl h
    · simp only [resolveStep, if_pos hgt, hlk] at h
      rcases addStatus_mem h with h | h
      · exact Or.inl h
      · subst h
        exact Or.inr ⟨hgt, rfl⟩
  · simp only [resolveStep, if_neg hgt] at h
    exact Or.inl h

/-- One loop iteration preserves freedom from duplicates in the status
set. -/
theorem resolveStep_nodup {acc : List String × List String}
    {ls : LabelScore} (h : acc.1.Nodup) : (resolveStep acc ls).1.Nodup := by
  by_cases hgt : ls.score > 6/10
  · rcases hlk : lookupLabel ls.label LABEL_MAPPING with _ | st'
    · simpa [resolveStep, if_pos hgt, hlk] using h
    · simpa [resolveStep, if_pos hgt, hlk] using addStatus_nodup st' h
  · simpa [resolveStep, if_neg hgt] using h

/-- Any status in the folded set was in the initial accumulator or comes
from some pair of the scores passing the strict threshold and the
mapping. -/
theorem foldl_resolveStep_mem :
    ∀ (scores : List LabelScore) (acc : List String × List String)
      (st : String), st ∈ (scores.foldl resolveStep acc).1 →
      st ∈ acc.1 ∨ ∃ ls ∈ scores,
        ls.score > 6/10 ∧ lookupLabel ls.label LABEL_MAPPING = some st
  | [], _, _, h => Or.inl h
  | ls :: rest, acc, st, h => by
    rcases foldl_resolveStep_mem rest (resolveStep acc ls) st h with
      h' | ⟨ls', hmem, hgt, hlk⟩
    · rcases resolveStep_mem h' with h'' | ⟨hgt, hlk⟩
      · exact Or.inl h''
      · exact Or.inr ⟨ls, List.mem_cons_self ls rest, hgt, hlk⟩
    · exact Or.inr ⟨ls', List.mem_cons_of_mem ls hmem, hgt, hlk⟩

/-- The folded status set is free from duplicates. -/
theorem foldl_resolveStep_nodup :
    ∀ (scores : List LabelScore) (acc : List String × List String),
      acc.1.Nodup → (scores.foldl resolveStep acc).1.Nodup
  | [], _, h => h
  | ls :: rest, acc, h =>
    foldl_resolveStep_nodup rest (resolveStep acc ls) (resolveStep_nodup h)

/-- When no score beats the threshold, the classification loop leaves the
accumulator untouched. -/
theorem foldl_resolveStep_of_le {scores : List LabelScore}
    (h : ∀ ls ∈ scores, ls.score ≤ 6/10)
    (acc : List String × List String) :
    scores.foldl resolveStep acc = acc := by
  induction scores generalizing acc with
  | nil => rfl
  | cons ls rest ih =>
    rw [List.foldl_cons, resolveStep_of_le (h ls (List.mem_cons_self ls rest))]
    exact ih (fun x hx => h x (List.mem_cons_of_mem ls hx)) acc

/-- A value returned by the label lookup is one of the mapping's values. -/
theorem lookupLabel_mem_values {l v : String} :
    ∀ {m : List (String × String)}, lookupLabel l m = some v →
      v ∈ m.map Prod.snd
  | [], h => by simp [lookupLabel] at h
  | (k, w) :: rest, h => by
    by_cases hk : k = l
    · simp only [lookupLabel, if_pos hk, Option.some.injEq] at h
      simp [h]
    · simp only [lookupLabel, if_neg hk] at h
      simpa using Or.inr (lookupLabel_mem_values h)

/-- Drawing from a non-empty pool succeeds and yields a pool element. -/
theorem randomChoice_mem (r : Nat) {l : List String} (h : l ≠ []) :
    ∃ a ∈ l, randomChoice r l = some a := by
  have hlen : 0 < l.length := List.length_pos.mpr h
  have hlt : r % l.length < l.length := Nat.mod_lt _ hlen
  exact ⟨l.get ⟨r % l.length, hlt⟩, List.get_mem l _ hlt,
    by simp [randomChoice, List.get?_eq_get hlt]⟩

/-- When every record that carries an answers list carries a non-empty
one, the selection loop never raises. -/
theorem selectAnswersAux_total (table : List CategoryData) (rnd : Nat → Nat)
    (ht : ∀ cd ∈ table, ∀ ans, cd.answers = some ans → ans ≠ []) :
    ∀ (sts : List String) (k : Nat) (acc : List String),
      ∃ l, selectAnswersAux table rnd sts k acc = some l
  | [], k, acc => ⟨acc, rfl⟩
  | st :: rest, k, acc => by
    rcases hf : findCategory table st with _ | cd
    · simpa [selectAnswersAux, hf] using
        selectAnswersAux_total table rnd ht rest k acc
    · rcases ha : cd.answers with _ | ans
      · simpa [selectAnswersAux, hf, ha] using
          selectAnswersAux_total table rnd ht rest k acc
      · have hcd : cd ∈ table := List.mem_of_find?_eq_some hf
        obtain ⟨a, _, hch⟩ := randomChoice_mem (rnd k) (ht cd hcd ans ha)
        simpa [selectAnswersAux, hf, ha, hch] using
          selectAnswersAux_total table rnd ht rest (k + 1) (acc ++ [a])

/-- Selecting for the single status `st`, whose record holds the
non-empty pool `ans`, draws exactly one answer, a member of `ans`. -/
theorem selectAnswers_single (table : List CategoryData) (rnd : Nat → Nat)
    {st : String} {cd : CategoryData} {ans : List String}
    (hf : findCategory table st = some cd) (ha : cd.answers = some ans)
    (hn : ans ≠ []) :
    ∃ a ∈ ans, selectAnswers table rnd [st] = some [a] := by
  obtain ⟨a, hmem, hch⟩ := randomChoice_mem (rnd 0) hn
  exact ⟨a, hmem, by simp [selectAnswers, selectAnswersAux, hf, ha, hch]⟩

/-- Composing a single status whose pool is non-empty yields the greeting
followed by exactly one answer drawn from that pool. -/
theorem compose_single (table : List CategoryData) (rnd : Nat → Nat)
    {st : String} {cd : CategoryData} {ans : List String}
    (name : String) (b : ℤ)
    (hf : findCategory table st = some cd) (ha : cd.answers = some ans)
    (hn : ans ≠ []) :
    ∃ a ∈ ans, compose table rnd [st] name b =
      some (greeting name b ++ a) := by
  obtain ⟨a, hmem, hsel⟩ := selectAnswers_single table rnd hf ha hn
  refine ⟨a, hmem, ?_⟩
  simp [compose, hsel, String.intercalate, String.intercalate.go]

/-- The greeting prefix is never the empty string. -/
theorem greeting_length_pos (name : String) (b : ℤ) :
    0 < (greeting name b).length := by
  simp only [greeting, String.length_append]
  have : 0 < "Gia chủ ".length := by decide
  omega

/-- Anything prefixed with the greeting is a non-empty string. -/
theorem greeting_append_ne_empty (name : String) (b : ℤ) (x : String) :
    greeting name b ++ x ≠ "" := by
  intro h
  have hpos := greeting_length_pos name b
  have hlen : (greeting name b ++ x).length = 0 := by rw [h]; rfl
  rw [String.length_append] at hlen
  omega

/-- `resolve` written with its fallback conditional exposed. -/
theorem resolve_eq_ite (scores : List LabelScore) :
    resolve scores =
      if (scores.foldl resolveStep ([], [])).1 = []
      then (["S4"], (scores.foldl resolveStep ([], [])).2 ++ ["Tổng quát"])
      else scores.foldl resolveStep ([], []) := rfl

/-! ### Claims -/

/-- C1: whenever the classifier yields nothing usable — the empty score
sequence (which is also how the adapter reports a classifier
error/exception) or no score strictly above the 0.6 threshold — the
resolved status set is exactly `["S4"]` with label `"Tổng quát"` recorded
as matched, and the composed message draws its single answer from the
S4 pool. -/
theorem resolve_fallback_general (scores : List LabelScore)
    (h : ∀ ls ∈ scores, ls.score ≤ 6/10) :
    resolve scores = (["S4"], ["Tổng quát"]) ∧
    ∀ (table : List CategoryData) (rnd : Nat → Nat) (name : String) (b : ℤ)
      (cd : CategoryData) (ans : List String),
      findCategory table "S4" = some cd → cd.answers = some ans → ans ≠ [] →
      ∃ a ∈ ans, compose table rnd (resolve scores).1 name b =
        some (greeting name b ++ a) := by
  have hres : resolve scores = (["S4"], ["Tổng quát"]) := by
    rw [resolve_eq_ite, foldl_resolveStep_of_le h]
    rfl
  refine ⟨hres, ?_⟩
  intro table rnd name b cd ans hf ha hn
  have h1 : (resolve scores).1 = ["S4"] := by rw [hres]
  rw [h1]
  exact compose_single table rnd name b hf ha hn

/-- Witness for C1 at the concrete boundary score 0.6 (excluded by the
strict comparison) and a one-record table. -/
theorem resolve_fallback_general_witness :
    resolve [⟨"Tài lộc", 6/10⟩] = (["S4"], ["Tổng quát"]) ∧
    ∃ a ∈ ["z"], compose [⟨"S4", some ["z"]⟩] (fun _ => 0)
      (resolve [⟨"Tài lộc", 6/10⟩]).1 "An" 1999 =
      some (greeting "An" 1999 ++ a) := by
  have h := resolve_fallback_general [⟨"Tài lộc", 6/10⟩]
    (by intro ls hls; simp only [List.mem_singleton] at hls; subst hls; norm_num)
  exact ⟨h.1, h.2 [⟨"S4", some ["z"]⟩] (fun _ => 0) "An" 1999 ⟨"S4", some ["z"]⟩
    ["z"] rfl rfl (by simp)⟩

/-- C2: every status in the set built by the classification loop comes
from a pair whose score is strictly greater than 0.6; a pair at or below
0.6 leaves the loop's accumulator unchanged, so it never contributes its
label's status. -/
theorem resolve_threshold_strict (scores : List LabelScore) (st : String)
    (h : st ∈ (scores.foldl resolveStep ([], [])).1) :
    (∀ (acc : List String × List String) (ls : LabelScore),
      ls.score ≤ 6/10 → resolveStep acc ls = acc) ∧
    ∃ ls ∈ scores, ls.score > 6/10 ∧
      lookupLabel ls.label LABEL_MAPPING = some st := by
  refine ⟨fun acc ls hle => resolveStep_of_le hle, ?_⟩
  rcases foldl_resolveStep_mem scores ([], []) st h with h' | h'
  · simp at h'
  · exact h'

/-- Witness for C2 at a single pair scoring 0.91, which contributes
status S3. -/
theorem resolve_threshold_strict_witness :
    (∀ (acc : List String × List String) (ls : LabelScore),
      ls.score ≤ 6/10 → resolveStep acc ls = acc) ∧
    ∃ ls ∈ [(⟨"Tài lộc", 91/100⟩ : LabelScore)], ls.score > 6/10 ∧
      lookupLabel ls.label LABEL_MAPPING = some "S3" :=
  resolve_threshold_strict [⟨"Tài lộc", 91/100⟩] "S3" (by
    norm_num [resolveStep, lookupLabel, LABEL_MAPPING, addStatus]
    decide)

/-- C3 counterexample: a table whose S4 record holds the empty answers
list makes the composer raise (`random.choice` on an empty list, modelled
`none`), so the composer does not tolerate arbitrary answer lists. -/
theorem compose_empty_pool_raises :
    compose [⟨"S4", some []⟩] (fun _ => 0) ["S4"] "An" 1999 = none := rfl

/-- C3 amended: for every non-empty status set and every table whose
records carry only non-empty answer lists (the empty table included), the
composer returns a non-empty string and never raises; when no answer is
accumulated it substitutes the fixed default reassurance string. -/
theorem compose_total_of_nonempty_pools (table : List CategoryData)
    (rnd : Nat → Nat) (statuses : List String) (name : String) (b : ℤ)
    (_hs : statuses ≠ [])
    (ht : ∀ cd ∈ table, ∀ ans, cd.answers = some ans → ans ≠ []) :
    ∃ s, compose table rnd statuses name b = some s ∧ s ≠ "" ∧
      (selectAnswers table rnd statuses = some [] →
        s = greeting name b ++ DEFAULT_ANSWER) := by
  obtain ⟨l, hl⟩ := selectAnswersAux_total table rnd ht statuses 0 []
  by_cases hnil : l = []
  · subst hnil
    refine ⟨greeting name b ++ DEFAULT_ANSWER, ?_, greeting_append_ne_empty _ _ _,
      fun _ => rfl⟩
    simp [compose, selectAnswers, hl, String.intercalate, String.intercalate.go]
  · refine ⟨greeting name b ++ String.intercalate " " l, ?_,
      greeting_append_ne_empty _ _ _, ?_⟩
    · simp [compose, selectAnswers, hl, hnil]
    · intro hsel
      rw [selectAnswers] at hsel
      rw [hl] at hsel
      exact absurd (Option.some.inj hsel) hnil

/-- Witness for C3's amended statement on the empty table and status set
`["S4"]`, where the default string fires. -/
theorem compose_total_of_nonempty_pools_witness :
    ∃ s, compose [] (fun _ => 0) ["S4"] "An" 1999 = some s ∧ s ≠ "" ∧
      (selectAnswers [] (fun _ => 0) ["S4"] = some [] →
        s = greeting "An" 1999 ++ DEFAULT_ANSWER) :=
  compose_total_of_nonempty_pools [] (fun _ => 0) ["S4"] "An" 1999
    (by simp) (by simp)

/-- C4: every composed result is the greeting template with the name and
birth year substituted, followed by the accumulated answers joined with a
single space, in accumulation order (the default string standing in when
the accumulator is empty). -/
theorem get_fortune_format (table : List CategoryData) (rnd : Nat → Nat)
    (cy : ℤ) (name : String) (age : ℤ) (scores : List LabelScore)
    (s : String) (h : get_fortune table rnd cy name age scores = some s) :
    ∃ sel, selectAnswers table rnd (resolve scores).1 = some sel ∧
      s = "Gia chủ " ++ name ++ ", Sinh năm " ++ toString (birth_year cy age)
        ++ ". " ++ String.intercalate " "
          (if sel = [] then [DEFAULT_ANSWER] else sel) := by
  unfold get_fortune compose at h
  rcases hsel : selectAnswers table rnd (resolve scores).1 with _ | sel
  · rw [hsel] at h
    cases h
  · rw [hsel] at h
    simp only [Option.some.injEq] at h
    exact ⟨sel, rfl, h.symm⟩

/-- Witness for C4 on a concrete run: one S3 answer drawn, message fully
evaluated. -/
theorem get_fortune_format_witness :
    ∃ sel, selectAnswers [⟨"S3", some ["x", "y"]⟩] (fun _ => 1)
        (resolve [⟨"Tài lộc", 91/100⟩]).1 = some sel ∧
      "Gia chủ An, Sinh năm 1999. y" = "Gia chủ " ++ "An" ++ ", Sinh năm "
        ++ toString (birth_year 2024 25) ++ ". " ++ String.intercalate " "
          (if sel = [] then [DEFAULT_ANSWER] else sel) :=
  get_fortune_format [⟨"S3", some ["x", "y"]⟩] (fun _ => 1) 2024 "An" 25
    [⟨"Tài lộc", 91/100⟩] "Gia chủ An, Sinh năm 1999. y" (by
      norm_num [get_fortune, compose, resolve, resolveStep, lookupLabel,
        LABEL_MAPPING, addStatus, selectAnswers, selectAnswersAux,
        findCategory, randomChoice, birth_year, greeting]
      decide)

/-- C5: the resolved status set never holds duplicates; in the scenario
where `"Tình duyên"` (0.8) and `"Gia đạo"` (0.7) both map to S1, the set
is exactly `["S1"]` and exactly one answer is drawn from the S1 pool. -/
theorem resolve_dedup_same_status (table : List CategoryData)
    (rnd : Nat → Nat) (name : String) (b : ℤ) (cd : CategoryData)
    (ans : List String) (hf : findCategory table "S1" = some cd)
    (ha : cd.answers = some ans) (hn : ans ≠ []) :
    (∀ scores : List LabelScore, (resolve scores).1.Nodup) ∧
    resolve [⟨"Tình duyên", 8/10⟩, ⟨"Gia đạo", 7/10⟩] =
      (["S1"], ["Tình duyên", "Gia đạo"]) ∧
    ∃ a ∈ ans, compose table rnd
      (resolve [⟨"Tình duyên", 8/10⟩, ⟨"Gia đạo", 7/10⟩]).1 name b =
      some (greeting name b ++ a) := by
  have hnodup : ∀ scores : List LabelScore, (resolve scores).1.Nodup := by
    intro scores
    rw [resolve_eq_ite]
    split
    · simp
    · exact foldl_resolveStep_nodup scores ([], []) (by simp)
  have hsc : resolve [⟨"Tình duyên", 8/10⟩, ⟨"Gia đạo", 7/10⟩] =
      (["S1"], ["Tình duyên", "Gia đạo"]) := by
    norm_num [resolve, resolveStep, lookupLabel, LABEL_MAPPING, addStatus]
    decide
  refine ⟨hnodup, hsc, ?_⟩
  have h1 : (resolve [⟨"Tình duyên", 8/10⟩, ⟨"Gia đạo", 7/10⟩]).1 = ["S1"] := by
    rw [hsc]
  rw [h1]
  exact compose_single table rnd name b hf ha hn

/-- Witness for C5 with a one-record S1 table. -/
theorem resolve_dedup_same_status_witness :
    resolve [⟨"Tình duyên", 8/10⟩, ⟨"Gia đạo", 7/10⟩] =
      (["S1"], ["Tình duyên", "Gia đạo"]) ∧
    ∃ a ∈ ["w"], compose [⟨"S1", some ["w"]⟩] (fun _ => 0)
      (resolve [⟨"Tình duyên", 8/10⟩, ⟨"Gia đạo", 7/10⟩]).1 "An" 1999 =
      some (greeting "An" 1999 ++ a) := by
  have h := resolve_dedup_same_status [⟨"S1", some ["w"]⟩] (fun _ => 0)
    "An" 1999 ⟨"S1", some ["w"]⟩ ["w"] rfl rfl (by simp)
  exact ⟨h.2.1, h.2.2⟩

/-- C6: in the scenario where `"Sự nghiệp"` (0.7 → S0) and `"Sức khỏe"`
(0.65 → S2) both pass the threshold, both statuses are resolved and the
composed message carries one answer from each pool, joined by a single
space. -/
theorem resolve_two_distinct_statuses (table : List CategoryData)
    (rnd : Nat → Nat) (name : String) (b : ℤ)
    (cd0 cd2 : CategoryData) (ans0 ans2 : List String)
    (h0 : findCategory table "S0" = some cd0) (ha0 : cd0.answers = some ans0)
    (hn0 : ans0 ≠ []) (h2 : findCategory table "S2" = some cd2)
    (ha2 : cd2.answers = some ans2) (hn2 : ans2 ≠ []) :
    resolve [⟨"Sự nghiệp", 7/10⟩, ⟨"Sức khỏe", 65/100⟩] =
      (["S0", "S2"], ["Sự nghiệp", "Sức khỏe"]) ∧
    ∃ a0 ∈ ans0, ∃ a2 ∈ ans2, compose table rnd
      (resolve [⟨"Sự nghiệp", 7/10⟩, ⟨"Sức khỏe", 65/100⟩]).1 name b =
      some (greeting name b ++ (a0 ++ " " ++ a2)) := by
  have hsc : resolve [⟨"Sự nghiệp", 7/10⟩, ⟨"Sức khỏe", 65/100⟩] =
      (["S0", "S2"], ["Sự nghiệp", "Sức khỏe"]) := by
    norm_num [resolve, resolveStep, lookupLabel, LABEL_MAPPING, addStatus]
    decide
  refine ⟨hsc, ?_⟩
  obtain ⟨a0, hm0, hc0⟩ := randomChoice_mem (rnd 0) hn0
  obtain ⟨a2, hm2, hc2⟩ := randomChoice_mem (rnd 1) hn2
  refine ⟨a0, hm0, a2, hm2, ?_⟩
  have h1 : (resolve [⟨"Sự nghiệp", 7/10⟩, ⟨"Sức khỏe", 65/100⟩]).1 =
      ["S0", "S2"] := by rw [hsc]
  rw [h1]
  simp [compose, selectAnswers, selectAnswersAux, h0, ha0, hc0, h2, ha2, hc2,
    String.intercalate, String.intercalate.go]

/-- Witness for C6 with a two-record table holding pools `["p"]` and
`["q"]`. -/
theorem resolve_two_distinct_statuses_witness :
    resolve [⟨"Sự nghiệp", 7/10⟩, ⟨"Sức khỏe", 65/100⟩] =
      (["S0", "S2"], ["Sự nghiệp", "Sức khỏe"]) ∧
    ∃ a0 ∈ ["p"], ∃ a2 ∈ ["q"],
      compose [⟨"S0", some ["p"]⟩, ⟨"S2", some ["q"]⟩] (fun _ => 0)
        (resolve [⟨"Sự nghiệp", 7/10⟩, ⟨"Sức khỏe", 65/100⟩]).1 "An" 1999 =
      some (greeting "An" 1999 ++ (a0 ++ " " ++ a2)) :=
  resolve_two_distinct_statuses [⟨"S0", some ["p"]⟩, ⟨"S2", some ["q"]⟩]
    (fun _ => 0) "An" 1999 ⟨"S0", some ["p"]⟩ ⟨"S2", some ["q"]⟩ ["p"] ["q"]
    rfl rfl (by simp) rfl rfl (by simp)

/-- C7: the birth year embedded in every produced message is
`current_year - age` (the current year being whatever value the request
handler read and passed in); in particular 2024 − 25 gives 1999. -/
theorem birth_year_derivation (table : List CategoryData) (rnd : Nat → Nat)
    (cy : ℤ) (name : String) (age : ℤ) (scores : List LabelScore)
    (s : String) (h : get_fortune table rnd cy name age scores = some s) :
    birth_year cy age = cy - age ∧
    ∃ rest, s = "Gia chủ " ++ name ++ ", Sinh năm " ++ toString (cy - age)
      ++ ". " ++ rest := by
  refine ⟨rfl, ?_⟩
  unfold get_fortune compose at h
  rcases hsel : selectAnswers table rnd (resolve scores).1 with _ | sel
  · rw [hsel] at h
    cases h
  · rw [hsel] at h
    simp only [Option.some.injEq] at h
    exact ⟨_, h.symm⟩

/-- Witness for C7 at age 25 and current year 2024: the message reads
"Sinh năm 1999". -/
theorem birth_year_derivation_witness :
    birth_year 2024 25 = 2024 - 25 ∧
    ∃ rest, "Gia chủ An, Sinh năm 1999. y" = "Gia chủ " ++ "An"
      ++ ", Sinh năm " ++ toString ((2024 : ℤ) - 25) ++ ". " ++ rest :=
  birth_year_derivation [⟨"S3", some ["x", "y"]⟩] (fun _ => 1) 2024 "An" 25
    [⟨"Tài lộc", 91/100⟩] "Gia chủ An, Sinh năm 1999. y" (by
      norm_num [get_fortune, compose, resolve, resolveStep, lookupLabel,
        LABEL_MAPPING, addStatus, selectAnswers, selectAnswersAux,
        findCategory, randomChoice, birth_year, greeting]
      decide)

/-- C8: with no webhook URL configured `send_webhook` performs no POST;
whether or not delivery fails it never lets an error escape; and the
user-visible fortune of the `/result` route does not depend on the
webhook configuration or on the delivery outcome. -/
theorem send_webhook_fire_and_forget (url : Option String)
    (postFails : Bool) (name : String) (age : ℤ) (question : String) :
    (send_webhook none postFails name age question).posted = none ∧
    (send_webhook url postFails name age question).raised = false ∧
    ∀ (table : List CategoryData) (rnd : Nat → Nat) (cy : ℤ)
      (scores : List LabelScore) (url2 : Option String) (postFails2 : Bool),
      (result_route table rnd cy url postFails name age question scores).1 =
        (result_route table rnd cy url2 postFails2 name age question
          scores).1 := by
  refine ⟨rfl, ?_, fun _ _ _ _ _ _ => rfl⟩
  cases url <;> rfl

/-- C9: every status the policy can ever resolve lies in the closed
enumeration S0..S4 — the values of `LABEL_MAPPING` together with the
fallback. -/
theorem resolve_status_range (scores : List LabelScore) (st : String)
    (h : st ∈ (resolve scores).1) :
    st ∈ ["S0", "S1", "S2", "S3", "S4"] := by
  rw [resolve_eq_ite] at h
  split at h
  · simp only [List.mem_singleton] at h
    simp [h]
  · rcases foldl_resolveStep_mem scores ([], []) st h with h' | ⟨_, _, _, hlk⟩
    · simp at h'
    · have hv := lookupLabel_mem_values hlk
      simp only [LABEL_MAPPING, List.map_cons, List.map_nil] at hv
      simp only [List.mem_cons, List.mem_singleton] at hv ⊢
      tauto

/-- Witness for C9 on the empty classifier output, which resolves to
"S4". -/
theorem resolve_status_range_witness :
    ("S4" : String) ∈ ["S0", "S1", "S2", "S3", "S4"] :=
  resolve_status_range [] "S4" (by decide)

/-- C10: a pair whose label is not a key of `LABEL_MAPPING` is silently
skipped even above the threshold: removing it changes neither the
resolution nor the final message, and `get_fortune` does not fail on
it. -/
theorem resolve_skips_unmapped (xs ys : List LabelScore) (ls : LabelScore)
    (h : lookupLabel ls.label LABEL_MAPPING = none) :
    resolve (xs ++ ls :: ys) = resolve (xs ++ ys) ∧
    ∀ (table : List CategoryData) (rnd : Nat → Nat) (cy : ℤ) (name : String)
      (age : ℤ), get_fortune table rnd cy name age (xs ++ ls :: ys) =
        get_fortune table rnd cy name age (xs ++ ys) := by
  have key : (xs ++ ls :: ys).foldl resolveStep ([], []) =
      (xs ++ ys).foldl resolveStep ([], []) := by
    rw [List.foldl_append, List.foldl_append, List.foldl_cons,
      resolveStep_of_unmapped h]
  have hres : resolve (xs ++ ls :: ys) = resolve (xs ++ ys) := by
    rw [resolve_eq_ite, resolve_eq_ite, key]
  exact ⟨hres, fun table rnd cy name age => by
    simp only [get_fortune, hres]⟩

/-- Witness for C10: an out-of-vocabulary label at score 0.95 changes
nothing. -/
theorem resolve_skips_unmapped_witness :
    resolve ([] ++ (⟨"Ẩm thực", 95/100⟩ : LabelScore) ::
        [⟨"Tài lộc", 9/10⟩]) =
      resolve ([] ++ [⟨"Tài lộc", 9/10⟩]) :=
  (resolve_skips_unmapped [] [⟨"Tài lộc", 9/10⟩] ⟨"Ẩm thực", 95/100⟩ rfl).1

end Fortune
